import Mathlib

/-!
Verification of the optimistic chat-send / response-reconciliation protocol of
the DeepResearcher paper-writing page
(`src/frontend/src/app/project/[id]/paper/page.tsx`).

The React component state relevant to the reconciler is embedded as a record
`ReconState`; the event handlers and effects become pure state-transition
functions.  JavaScript strings are modelled as Lean `String`, the JS number
held in `messageCountWhenSentRef` as `Int` (it is set to `-1` or to a list
length), and JS string truthiness (`null` and `""` are falsy) is modelled
explicitly by `strOptTruthy`.
-/

/-- A chat message as used by the page (`Message` of `src/frontend/src/lib/api-v3`):
an agent tag, the text content and an ISO timestamp string. -/
structure Message where
  agent : String
  content : String
  timestamp : String
deriving DecidableEq

/-- The reconciliation-relevant component state of `PaperPage`:
`isWaitingForResponse` and `pendingMessage` are React `useState` values,
`messageCountWhenSent` is the mutable ref `messageCountWhenSentRef.current`
(initially `-1`), and `inputMessage` is the text-area state. -/
structure ReconState where
  isWaitingForResponse : Bool
  pendingMessage : Option String
  messageCountWhenSent : Int
  inputMessage : String
deriving DecidableEq

/-- The initial component state: `useState(false)`, `useState<string|null>(null)`,
`useRef<number>(-1)`, `useState('')`. -/
def initialReconState : ReconState :=
  { isWaitingForResponse := false
    pendingMessage := none
    messageCountWhenSent := -1
    inputMessage := "" }

/-- JS truthiness of a `string | null` value: `null` and the empty string are
falsy, every other string is truthy. -/
def strOptTruthy : Option String → Bool
  | none => false
  | some s => !(s == "")

/-- The whitespace set removed by JavaScript `String.prototype.trim`
(ECMA-262 WhiteSpace and LineTerminator code points: TAB, LF, VT, FF, CR,
SP, NBSP, the Unicode space separators, LS, PS and ZWNBSP). -/
def isJsWhitespace (c : Char) : Bool :=
  c == '\t' || c == '\n' || c.val == 0x0B || c.val == 0x0C || c == '\r' ||
  c == ' ' || c.val == 0xA0 || c.val == 0x1680 ||
  (0x2000 ≤ c.val && c.val ≤ 0x200A) || c.val == 0x2028 || c.val == 0x2029 ||
  c.val == 0x202F || c.val == 0x205F || c.val == 0x3000 || c.val == 0xFEFF

/-- JavaScript `String.prototype.trim`: strip leading and trailing
JS whitespace. -/
def jsTrim (s : String) : String :=
  ⟨((s.toList.dropWhile isJsWhitespace).reverse.dropWhile isJsWhitespace).reverse⟩

/-- The response-detection `useEffect` of `PaperPage` (the `onLogUpdated`
operation of the spec), translated branch by branch:

* if the log is non-empty, its last entry is inspected;
* echo branch: `pendingMessage && lastMsg.agent === 'user' &&
  lastMsg.content === pendingMessage` clears only `pendingMessage`;
* response branch: `isWaitingForResponse && lastMsg.agent !== 'user' &&
  messages.length > messageCountWhenSentRef.current` clears
  `isWaitingForResponse`, `pendingMessage` and resets the ref to `-1`.

Both conditions read the same render's state snapshot `s` (React `useState`
values are closure values; the first branch's `setPendingMessage` does not
affect the second condition, which does not mention `pendingMessage`). -/
def onLogUpdated (s : ReconState) (messages : List Message) : ReconState :=
  match messages.getLast? with
  | none => s
  | some lastMsg =>
      let afterEcho :=
        if strOptTruthy s.pendingMessage = true ∧ lastMsg.agent = "user" ∧
            some lastMsg.content = s.pendingMessage then
          { s with pendingMessage := none }
        else s
      if s.isWaitingForResponse = true ∧ lastMsg.agent ≠ "user" ∧
          (messages.length : Int) > s.messageCountWhenSent then
        { afterEcho with
            isWaitingForResponse := false
            pendingMessage := none
            messageCountWhenSent := -1 }
      else afterEcho

/-- `handleSendMessage` of `PaperPage`, given the current polled log length
`messagesLength` (`messages.length`).  Returns the new state together with the
network payload handed to `sendMessage.mutate` (`none` when the guard
`!inputMessage.trim() || isWaitingForResponse` makes the handler return
early).  The guard's JS truthiness test `!inputMessage.trim()` is exactly
`jsTrim inputMessage = ""`. -/
def handleSendMessage (s : ReconState) (messagesLength : Nat) : ReconState × Option String :=
  if jsTrim s.inputMessage = "" ∨ s.isWaitingForResponse = true then (s, none)
  else
    let messageToSend := jsTrim s.inputMessage
    ({ isWaitingForResponse := true
       pendingMessage := some messageToSend
       messageCountWhenSent := (messagesLength : Int)
       inputMessage := "" },
     some messageToSend)

/-- The `onError` callback of `sendMessage.mutate` in `handleSendMessage`:
`setIsWaitingForResponse(false); setPendingMessage(null);
messageCountWhenSentRef.current = -1`. -/
def onSendError (s : ReconState) : ReconState :=
  { s with
      isWaitingForResponse := false
      pendingMessage := none
      messageCountWhenSent := -1 }

/-- The body of the 60-second watchdog `setTimeout(() =>
setIsWaitingForResponse(false), 60000)`; the surrounding `useEffect` arms it
only while `isWaitingForResponse` is true. -/
def onTimeout (s : ReconState) : ReconState :=
  { s with isWaitingForResponse := false }

/-- The `refetchInterval` of the paper-writing `useQuery`:
`isWaitingForResponse ? 1000 : 3000` (milliseconds). -/
def paperWritingRefetchInterval (isWaitingForResponse : Bool) : Nat :=
  if isWaitingForResponse then 1000 else 3000

/-- The component states reachable by the reconciler's event handlers from the
initial state: typing into the text area, submitting (`handleSendMessage`
against a log of any length), the network-error rollback, the watchdog firing
(only armed while waiting), and a log update.  Every call of the
response-detection effect happens at such a state. -/
inductive Reachable : ReconState → Prop where
  | init : Reachable initialReconState
  | typing (s : ReconState) (t : String) :
      Reachable s → Reachable { s with inputMessage := t }
  | send (s : ReconState) (n : Nat) :
      Reachable s → Reachable (handleSendMessage s n).1
  | sendError (s : ReconState) :
      Reachable s → Reachable (onSendError s)
  | timeout (s : ReconState) :
      Reachable s → s.isWaitingForResponse = true → Reachable (onTimeout s)
  | logUpdated (s : ReconState) (messages : List Message) :
      Reachable s → Reachable (onLogUpdated s messages)

/-- `MIN_PANEL_WIDTH` constant of the page (pixels).  JS numbers are modelled
as rationals. -/
def MIN_PANEL_WIDTH : ℚ := 320

/-- The new split ratio computed by `handleMouseMove` of `useResizableSplit`:
`newRatio = 1 - mouseX / containerWidth`, clamped by
`Math.max(minRatio, Math.min(maxRatio, newRatio))` with
`minRatio = MIN_PANEL_WIDTH / containerWidth` and
`maxRatio = 1 - MIN_PANEL_WIDTH / containerWidth`. -/
def handleMouseMoveRatio (containerWidth mouseX : ℚ) : ℚ :=
  let newRatio := 1 - mouseX / containerWidth
  let minRatio := MIN_PANEL_WIDTH / containerWidth
  let maxRatio := 1 - MIN_PANEL_WIDTH / containerWidth
  max minRatio (min maxRatio newRatio)

/-- Outcome of a JS expression: a normal completion or a thrown exception. -/
inductive JsOutcome (α : Type) where
  | normal (a : α)
  | thrown
deriving DecidableEq

/-- Two decimal digits read as a number, `none` if either is not a digit. -/
def digit2 (a b : Char) : Option Nat :=
  if a.isDigit && b.isDigit then some ((a.toNat - 48) * 10 + (b.toNat - 48))
  else none

/-- Time-zone offset suffix of the ECMA-262 Date Time String Format:
empty, `Z`, or `±HH:mm`. -/
def validOffset : List Char → Bool
  | [] => true
  | ['Z'] => true
  | [sgn, h1, h2, ':', m1, m2] =>
      (sgn == '+' || sgn == '-') &&
      (match digit2 h1 h2, digit2 m1 m2 with
       | some hh, some mm => hh ≤ 23 && mm ≤ 59
       | _, _ => false)
  | _ => false

/-- After `HH:mm:ss`: an optional `.sss` fraction, then the offset. -/
def validFracThenOffset : List Char → Bool
  | '.' :: d1 :: d2 :: d3 :: rest =>
      [d1, d2, d3].all Char.isDigit && validOffset rest
  | rest => validOffset rest

/-- After `HH:mm`: either the offset directly, or `:ss` then
fraction/offset. -/
def validTimeTail : List Char → Bool
  | ':' :: s1 :: s2 :: rest =>
      (match digit2 s1 s2 with
       | some ss => ss ≤ 59 && validFracThenOffset rest
       | none => false)
  | rest => validOffset rest

/-- The `YYYY[-MM[-DD]]` date part of the Date Time String Format. -/
def validDatePart : List Char → Bool
  | [a, b, c, d] => [a, b, c, d].all Char.isDigit
  | [a, b, c, d, '-', m1, m2] =>
      [a, b, c, d].all Char.isDigit &&
      (match digit2 m1 m2 with
       | some mm => 1 ≤ mm && mm ≤ 12
       | none => false)
  | [a, b, c, d, '-', m1, m2, '-', e1, e2] =>
      [a, b, c, d].all Char.isDigit &&
      (match digit2 m1 m2 with
       | some mm => 1 ≤ mm && mm ≤ 12
       | none => false) &&
      (match digit2 e1 e2 with
       | some dd => 1 ≤ dd && dd ≤ 31
       | none => false)
  | _ => false

/-- The `HH:mm[:ss[.sss]][offset]` time part following `T`; returns the hour
and minute fields when well-formed. -/
def parseTimePart : List Char → Option (Nat × Nat)
  | h1 :: h2 :: ':' :: m1 :: m2 :: rest =>
      (match digit2 h1 h2, digit2 m1 m2 with
       | some hh, some mm =>
           if hh ≤ 23 && mm ≤ 59 && validTimeTail rest then some (hh, mm)
           else none
       | _, _ => none)
  | _ => none

/-- Model of the host `Date` constructor on a string argument (ECMA-262
§21.4.3.2, Date Time String Format `YYYY[-MM[-DD]][THH:mm[:ss[.sss]][offset]]`):
a recognized string yields the hour/minute fields of its time component
(midnight for date-only forms); any other string yields `none`, an invalid
Date (NaN time value) — the constructor never throws on a string.  The
extended-year form and engine-specific fallback parsing of other layouts are
outside this model; the malformed inputs used below are invalid in every
major engine. -/
def jsDateParse (ts : String) : Option (Nat × Nat) :=
  let parts := ts.toList.span (fun c => c != 'T')
  match parts.2 with
  | [] => if validDatePart parts.1 then some (0, 0) else none
  | _ :: timePart => if validDatePart parts.1 then parseTimePart timePart else none

/-- Two-digit decimal rendering. -/
def pad2 (n : Nat) : String :=
  if n < 10 then "0" ++ toString n else toString n

/-- Model of the host call chain
`new Date(ts).toLocaleTimeString([], ⟨hour: '2-digit', minute: '2-digit'⟩)`.
Per ECMA-402 §13.4.3, `toLocaleTimeString` on an invalid Date returns the
string "Invalid Date" — it does NOT throw; and with this fixed, valid option
bag the formatter throws for no input, so the outcome is always `normal`.
Valid dates render as two-digit hour and minute (the host's local-time-zone
conversion is not modelled; the theorems below concern malformed inputs
only). -/
def dateToLocaleTimeString (ts : String) : JsOutcome String :=
  match jsDateParse ts with
  | none => JsOutcome.normal "Invalid Date"
  | some hm => JsOutcome.normal (pad2 hm.1 ++ ":" ++ pad2 hm.2)

/-- `formatTimestamp` of `PaperPage`: the host formatting wrapped in
`try ... catch`, the catch returning the empty string. -/
def formatTimestamp (ts : String) : String :=
  match dateToLocaleTimeString ts with
  | JsOutcome.normal r => r
  | JsOutcome.thrown => ""

/-- `handleSendMessage` either leaves `pendingMessage` alone (guard hit) or
stores the trimmed input, which is then non-empty. -/
theorem handleSendMessage_pendingMessage (s : ReconState) (n : Nat) :
    (handleSendMessage s n).1.pendingMessage = s.pendingMessage ∨
    ((handleSendMessage s n).1.pendingMessage = some (jsTrim s.inputMessage) ∧
      jsTrim s.inputMessage ≠ "") := by
  unfold handleSendMessage
  split_ifs with h
  · exact Or.inl rfl
  · push_neg at h
    exact Or.inr ⟨rfl, h.1⟩

/-- `onLogUpdated` either clears `pendingMessage` or leaves it alone. -/
theorem onLogUpdated_pendingMessage (s : ReconState) (messages : List Message) :
    (onLogUpdated s messages).pendingMessage = none ∨
    (onLogUpdated s messages).pendingMessage = s.pendingMessage := by
  unfold onLogUpdated
  cases messages.getLast? with
  | none => exact Or.inr rfl
  | some lastMsg =>
      simp only
      split_ifs <;> simp

/-- Invariant: at every reachable state, a non-`null` `pendingMessage` is a
non-empty string (it was stored by `handleSendMessage`, whose guard rejects
inputs with empty trim). -/
theorem pending_nonempty_of_reachable {s : ReconState} (h : Reachable s) :
    ∀ p, s.pendingMessage = some p → p ≠ "" := by
  induction h with
  | init => intro p hp; simp [initialReconState] at hp
  | typing s t _ ih => intro p hp; exact ih p hp
  | send s n _ ih =>
      intro p hp
      rcases handleSendMessage_pendingMessage s n with h1 | h1
      · rw [h1] at hp; exact ih p hp
      · rw [h1.1] at hp
        injection hp with hp
        rw [← hp]
        exact h1.2
  | sendError s _ _ => intro p hp; simp [onSendError] at hp
  | timeout s _ _ ih => intro p hp; exact ih p hp
  | logUpdated s messages _ ih =>
      intro p hp
      rcases onLogUpdated_pendingMessage s messages with h1 | h1
      · rw [h1] at hp; exact absurd hp (by simp)
      · rw [h1] at hp; exact ih p hp

/-- After resolution (`pendingMessage = null`, `isWaitingForResponse = false`)
a log update is a no-op: the echo branch needs a truthy pending message and the
response branch needs the waiting flag. -/
theorem onLogUpdated_resolved (s : ReconState) (messages : List Message)
    (hp : s.pendingMessage = none) (hw : s.isWaitingForResponse = false) :
    onLogUpdated s messages = s := by
  unfold onLogUpdated
  cases messages.getLast? with
  | none => rfl
  | some lastMsg => simp [hp, hw, strOptTruthy]

/-- C1 (counterexample): the response-detection effect does NOT clear the
pending message on a non-user tail entry with `length > snapshot` when the
waiting flag is already false.  The pre-state is reachable: type "x", send it
against an empty log, then let the 60-second watchdog fire — `pendingMessage`
is still `some "x"` and the snapshot is still `0`.  A subsequent log update
whose single entry is from agent "system" satisfies every hypothesis of the
claim, yet `pendingMessage` stays `some "x"` instead of becoming `null`,
because the response branch is additionally guarded by `isWaitingForResponse`. -/
theorem response_detection_not_waiting_cex :
    Reachable (onTimeout (handleSendMessage { initialReconState with inputMessage := "x" } 0).1) ∧
    (onTimeout (handleSendMessage { initialReconState with inputMessage := "x" } 0).1).pendingMessage
      = some "x" ∧
    ([({ agent := "system", content := "done", timestamp := "2024-01-01T00:00:00Z" } : Message)].getLast?
      = some { agent := "system", content := "done", timestamp := "2024-01-01T00:00:00Z" }) ∧
    ("system" : String) ≠ "user" ∧
    (([({ agent := "system", content := "done", timestamp := "2024-01-01T00:00:00Z" } : Message)].length : Int)
      > (onTimeout (handleSendMessage { initialReconState with inputMessage := "x" } 0).1).messageCountWhenSent) ∧
    (onLogUpdated
      (onTimeout (handleSendMessage { initialReconState with inputMessage := "x" } 0).1)
      [{ agent := "system", content := "done", timestamp := "2024-01-01T00:00:00Z" }]).pendingMessage
      = some "x" :=
  ⟨Reachable.timeout _
      (Reachable.send _ 0 (Reachable.typing _ "x" Reachable.init)) (by decide),
    by decide, by decide, by decide, by decide, by decide⟩

/-- C1 (amended): if the reconciler is still waiting and `onLogUpdated` sees a
non-empty log whose last entry is from a non-user agent and whose length
exceeds the send-time snapshot, then the waiting flag and the pending message
are both cleared. -/
theorem response_detection_clears_state (s : ReconState) (messages : List Message)
    (lastMsg : Message) (hw : s.isWaitingForResponse = true)
    (hl : messages.getLast? = some lastMsg) (ha : lastMsg.agent ≠ "user")
    (hn : (messages.length : Int) > s.messageCountWhenSent) :
    (onLogUpdated s messages).isWaitingForResponse = false ∧
    (onLogUpdated s messages).pendingMessage = none := by
  unfold onLogUpdated
  rw [hl]
  have hcond : s.isWaitingForResponse = true ∧ lastMsg.agent ≠ "user" ∧
      (messages.length : Int) > s.messageCountWhenSent := ⟨hw, ha, hn⟩
  simp [hcond]

/-- C1 (amended, witness): concrete run of the response branch. -/
theorem response_detection_clears_state_witness :
    (onLogUpdated
      { isWaitingForResponse := true, pendingMessage := some "hello",
        messageCountWhenSent := 1, inputMessage := "" }
      [{ agent := "user", content := "hello", timestamp := "t0" },
       { agent := "system", content := "done", timestamp := "t1" }]).isWaitingForResponse = false ∧
    (onLogUpdated
      { isWaitingForResponse := true, pendingMessage := some "hello",
        messageCountWhenSent := 1, inputMessage := "" }
      [{ agent := "user", content := "hello", timestamp := "t0" },
       { agent := "system", content := "done", timestamp := "t1" }]).pendingMessage = none :=
  response_detection_clears_state _ _
    { agent := "system", content := "done", timestamp := "t1" }
    rfl (by decide) (by decide) (by decide)

/-- C2: when the trimmed input is non-empty and the reconciler is not waiting,
`handleSendMessage` records the current log length as the snapshot, stores the
trimmed text as the pending message, sets the waiting flag, clears the input
field, and hands the trimmed text to the network; when already waiting or the
input is empty, it changes nothing and sends nothing. -/
theorem handleSendMessage_effects (s : ReconState) (n : Nat) :
    (jsTrim s.inputMessage ≠ "" → s.isWaitingForResponse = false →
      (handleSendMessage s n).1.messageCountWhenSent = (n : Int) ∧
      (handleSendMessage s n).1.pendingMessage = some (jsTrim s.inputMessage) ∧
      (handleSendMessage s n).1.isWaitingForResponse = true ∧
      (handleSendMessage s n).1.inputMessage = "" ∧
      (handleSendMessage s n).2 = some (jsTrim s.inputMessage)) ∧
    (s.isWaitingForResponse = true ∨ s.inputMessage = "" →
      handleSendMessage s n = (s, none)) := by
  constructor
  · intro h1 h2
    have hc : ¬(jsTrim s.inputMessage = "" ∨ s.isWaitingForResponse = true) := by
      rintro (h | h)
      · exact h1 h
      · rw [h2] at h; exact Bool.false_ne_true h
    simp [handleSendMessage, hc]
  · intro h
    have hc : jsTrim s.inputMessage = "" ∨ s.isWaitingForResponse = true := by
      rcases h with h | h
      · exact Or.inr h
      · exact Or.inl (by rw [h]; rfl)
    simp [handleSendMessage, hc]

/-- C2 (witness): a successful send of `" hi "` against a log of length 2, and
a no-op send while waiting. -/
theorem handleSendMessage_effects_witness :
    ((handleSendMessage { initialReconState with inputMessage := " hi " } 2).1.messageCountWhenSent
        = (2 : Int) ∧
      (handleSendMessage { initialReconState with inputMessage := " hi " } 2).1.pendingMessage
        = some (jsTrim " hi ") ∧
      (handleSendMessage { initialReconState with inputMessage := " hi " } 2).1.isWaitingForResponse
        = true ∧
      (handleSendMessage { initialReconState with inputMessage := " hi " } 2).1.inputMessage = "" ∧
      (handleSendMessage { initialReconState with inputMessage := " hi " } 2).2
        = some (jsTrim " hi ")) ∧
    handleSendMessage
        { isWaitingForResponse := true, pendingMessage := some "x",
          messageCountWhenSent := 0, inputMessage := "hi" } 5
      = ({ isWaitingForResponse := true, pendingMessage := some "x",
           messageCountWhenSent := 0, inputMessage := "hi" }, none) :=
  ⟨(handleSendMessage_effects _ 2).1 (by decide) rfl,
    (handleSendMessage_effects _ 5).2 (Or.inl rfl)⟩

/-- C3: at any reachable state with a pending message, a log update whose last
entry is the user's echo of that pending message clears the pending message
and leaves the waiting flag (and the snapshot) unchanged. -/
theorem echo_clears_pending_only (s : ReconState) (messages : List Message)
    (lastMsg : Message) (p : String) (hreach : Reachable s)
    (hp : s.pendingMessage = some p) (hl : messages.getLast? = some lastMsg)
    (ha : lastMsg.agent = "user") (hc : lastMsg.content = p) :
    (onLogUpdated s messages).pendingMessage = none ∧
    (onLogUpdated s messages).isWaitingForResponse = s.isWaitingForResponse ∧
    (onLogUpdated s messages).messageCountWhenSent = s.messageCountWhenSent := by
  have hpne : p ≠ "" := pending_nonempty_of_reachable hreach p hp
  unfold onLogUpdated
  rw [hl]
  have hecho : strOptTruthy s.pendingMessage = true ∧ lastMsg.agent = "user" ∧
      some lastMsg.content = s.pendingMessage := by
    refine ⟨?_, ha, by rw [hc, hp]⟩
    rw [hp]
    simp [strOptTruthy, hpne]
  have hnr : ¬(s.isWaitingForResponse = true ∧ lastMsg.agent ≠ "user" ∧
      (messages.length : Int) > s.messageCountWhenSent) := by
    rintro ⟨-, hne, -⟩
    exact hne ha
  simp [hecho, hnr]

/-- C3 (witness): send "hello" from the initial state against an empty log,
then observe the log `[{agent := "user", content := "hello"}]`: the pending
message clears while the waiting flag stays `true`. -/
theorem echo_clears_pending_only_witness :
    (onLogUpdated (handleSendMessage { initialReconState with inputMessage := "hello" } 0).1
        [{ agent := "user", content := "hello", timestamp := "t0" }]).pendingMessage = none ∧
    (onLogUpdated (handleSendMessage { initialReconState with inputMessage := "hello" } 0).1
        [{ agent := "user", content := "hello", timestamp := "t0" }]).isWaitingForResponse
      = (handleSendMessage { initialReconState with inputMessage := "hello" } 0).1.isWaitingForResponse ∧
    (onLogUpdated (handleSendMessage { initialReconState with inputMessage := "hello" } 0).1
        [{ agent := "user", content := "hello", timestamp := "t0" }]).messageCountWhenSent
      = (handleSendMessage { initialReconState with inputMessage := "hello" } 0).1.messageCountWhenSent :=
  echo_clears_pending_only _ _
    { agent := "user", content := "hello", timestamp := "t0" } "hello"
    (Reachable.send _ 0 (Reachable.typing _ "hello" Reachable.init))
    (by decide) rfl rfl rfl

/-- C4: when the watchdog fires while waiting, only the waiting flag changes
(to `false`); pending message, snapshot and input are untouched; firing again
changes nothing further; and a new send with non-empty trimmed input is no
longer blocked even though the pending message may still be set. -/
theorem timeout_clears_waiting_only (s : ReconState) (_hw : s.isWaitingForResponse = true) :
    (onTimeout s).isWaitingForResponse = false ∧
    (onTimeout s).pendingMessage = s.pendingMessage ∧
    (onTimeout s).messageCountWhenSent = s.messageCountWhenSent ∧
    (onTimeout s).inputMessage = s.inputMessage ∧
    onTimeout (onTimeout s) = onTimeout s ∧
    (∀ t : String, ∀ n : Nat, jsTrim t ≠ "" →
      (handleSendMessage { onTimeout s with inputMessage := t } n).2 = some (jsTrim t)) := by
  refine ⟨rfl, rfl, rfl, rfl, rfl, ?_⟩
  intro t n ht
  have hc : ¬(jsTrim ({ onTimeout s with inputMessage := t } : ReconState).inputMessage = "" ∨
      ({ onTimeout s with inputMessage := t } : ReconState).isWaitingForResponse = true) := by
    rintro (h | h)
    · exact ht h
    · exact Bool.false_ne_true h
  simp [handleSendMessage, hc]

/-- C4 (witness): the watchdog fires on a waiting state holding pending "x". -/
theorem timeout_clears_waiting_only_witness :
    (onTimeout (ReconState.mk true (some "x") 0 "")).isWaitingForResponse = false ∧
    (onTimeout (ReconState.mk true (some "x") 0 "")).pendingMessage = some "x" ∧
    (onTimeout (ReconState.mk true (some "x") 0 "")).messageCountWhenSent = (0 : Int) ∧
    (onTimeout (ReconState.mk true (some "x") 0 "")).inputMessage = "" ∧
    onTimeout (onTimeout (ReconState.mk true (some "x") 0 ""))
      = onTimeout (ReconState.mk true (some "x") 0 "") ∧
    (∀ t : String, ∀ n : Nat, jsTrim t ≠ "" →
      (handleSendMessage
        { onTimeout (ReconState.mk true (some "x") 0 "") with inputMessage := t } n).2
        = some (jsTrim t)) :=
  timeout_clears_waiting_only (ReconState.mk true (some "x") 0 "") rfl

/-- C5: the `onError` rollback restores the three reconciliation-state
components (waiting flag, pending message, send-time snapshot) to their idle
(initial) values, for every pre-state. -/
theorem sendError_restores_idle (s : ReconState) :
    (onSendError s).isWaitingForResponse = initialReconState.isWaitingForResponse ∧
    (onSendError s).pendingMessage = initialReconState.pendingMessage ∧
    (onSendError s).messageCountWhenSent = initialReconState.messageCountWhenSent :=
  ⟨rfl, rfl, rfl⟩

/-- C6: once resolved (`pendingMessage = null`, waiting flag `false`),
applying `onLogUpdated` with the same log any number of times leaves the state
unchanged. -/
theorem onLogUpdated_idempotent_after_resolution (s : ReconState)
    (messages : List Message) (k : Nat)
    (hp : s.pendingMessage = none) (hw : s.isWaitingForResponse = false) :
    (fun t => onLogUpdated t messages)^[k] s = s := by
  induction k with
  | zero => rfl
  | succ k ih =>
      rw [Function.iterate_succ_apply, onLogUpdated_resolved s messages hp hw, ih]

/-- C6 (witness): three applications on the resolved initial state. -/
theorem onLogUpdated_idempotent_after_resolution_witness :
    (fun t => onLogUpdated t [{ agent := "system", content := "done", timestamp := "t0" }])^[3]
        initialReconState
      = initialReconState :=
  onLogUpdated_idempotent_after_resolution initialReconState
    [{ agent := "system", content := "done", timestamp := "t0" }] 3 rfl rfl

/-- C8: the poll interval of the paper-writing query while waiting (1000 ms)
is strictly shorter than while not waiting (3000 ms). -/
theorem refetchInterval_shorter_while_waiting :
    paperWritingRefetchInterval true < paperWritingRefetchInterval false ∧
    paperWritingRefetchInterval true = 1000 ∧
    paperWritingRefetchInterval false = 3000 := by decide

/-- C9: the network payload and the stored pending message are always the
JS-trimmed input; a whitespace-only (empty-trim) input makes the send a
complete no-op; and when the input differs from its trim, the stored pending
message is never the untrimmed input. -/
theorem handleSendMessage_trims_input (s : ReconState) (n : Nat) :
    (jsTrim s.inputMessage = "" → handleSendMessage s n = (s, none)) ∧
    (∀ m, (handleSendMessage s n).2 = some m →
      m = jsTrim s.inputMessage ∧
      (handleSendMessage s n).1.pendingMessage = some (jsTrim s.inputMessage) ∧
      (s.inputMessage ≠ jsTrim s.inputMessage →
        (handleSendMessage s n).1.pendingMessage ≠ some s.inputMessage)) := by
  constructor
  · intro h
    simp [handleSendMessage, h]
  · intro m hm
    by_cases hcond : jsTrim s.inputMessage = "" ∨ s.isWaitingForResponse = true
    · simp [handleSendMessage, hcond] at hm
    · refine ⟨?_, ?_, ?_⟩
      · simp [handleSendMessage, hcond] at hm
        exact hm.symm
      · simp [handleSendMessage, hcond]
      · intro hdiff heq
        simp [handleSendMessage, hcond] at heq
        exact hdiff heq.symm

/-- C9 (witness): sending `" a "` stores and transmits `"a"`, and a
whitespace-only input `" "` is a no-op. -/
theorem handleSendMessage_trims_input_witness :
    ((handleSendMessage { initialReconState with inputMessage := " a " } 1).1.pendingMessage
        = some (jsTrim " a ") ∧
      (handleSendMessage { initialReconState with inputMessage := " a " } 1).1.pendingMessage
        ≠ some " a ") ∧
    handleSendMessage { initialReconState with inputMessage := " " } 1
      = ({ initialReconState with inputMessage := " " }, none) := by
  have h2 := (handleSendMessage_trims_input { initialReconState with inputMessage := " a " } 1).2
    "a" (by decide)
  exact ⟨⟨h2.2.1, h2.2.2 (by decide)⟩,
    (handleSendMessage_trims_input { initialReconState with inputMessage := " " } 1).1 (by decide)⟩

/-- C7 (counterexample): on the malformed timestamp "not-a-date" the host
Date is invalid, and `formatTimestamp` returns the host rendering
"Invalid Date" — not the empty string: per ECMA-402 `toLocaleTimeString` does
not throw on an invalid Date, so the catch branch that would yield `''` is
never taken. -/
theorem formatTimestamp_malformed_cex :
    jsDateParse "not-a-date" = none ∧
    formatTimestamp "not-a-date" = "Invalid Date" ∧
    formatTimestamp "not-a-date" ≠ "" := by decide

/-- C7 (amended): `formatTimestamp` never throws — the `try/catch` makes it
total, returning a string on every input — but for every malformed timestamp
(one the host `Date` cannot parse) it returns the non-empty host rendering
"Invalid Date", not the empty string; the empty string would be returned only
if the host formatter itself threw, which it does not. -/
theorem formatTimestamp_malformed (ts : String) (h : jsDateParse ts = none) :
    formatTimestamp ts = "Invalid Date" ∧ formatTimestamp ts ≠ "" := by
  refine ⟨?_, ?_⟩ <;> simp [formatTimestamp, dateToLocaleTimeString, h]

/-- C7 (amended, witness): a concrete malformed timestamp. -/
theorem formatTimestamp_malformed_witness :
    formatTimestamp "yesterday at noon" = "Invalid Date" ∧
    formatTimestamp "yesterday at noon" ≠ "" :=
  formatTimestamp_malformed "yesterday at noon" (by decide)

/-- C10: during a drag, the ratio produced by `handleMouseMove` is clamped to
`[MIN_PANEL_WIDTH/W, 1 - MIN_PANEL_WIDTH/W]`, so whenever the container is at
least `2 * MIN_PANEL_WIDTH` (640 px) wide, each panel is allotted at least
`MIN_PANEL_WIDTH` (320 px): the artifact panel gets `ratio * W` and the chat
panel `(1 - ratio) * W`. -/
theorem handleMouseMoveRatio_clamped (W x : ℚ) (hW : 2 * MIN_PANEL_WIDTH ≤ W) :
    MIN_PANEL_WIDTH / W ≤ handleMouseMoveRatio W x ∧
    handleMouseMoveRatio W x ≤ 1 - MIN_PANEL_WIDTH / W ∧
    MIN_PANEL_WIDTH ≤ handleMouseMoveRatio W x * W ∧
    MIN_PANEL_WIDTH ≤ (1 - handleMouseMoveRatio W x) * W := by
  have hW0 : (0 : ℚ) < W := lt_of_lt_of_le (by norm_num [MIN_PANEL_WIDTH]) hW
  have hminmax : MIN_PANEL_WIDTH / W ≤ 1 - MIN_PANEL_WIDTH / W := by
    rw [le_sub_iff_add_le, div_add_div_same, div_le_one hW0]
    linarith
  have hlow : MIN_PANEL_WIDTH / W ≤ handleMouseMoveRatio W x := by
    simp only [handleMouseMoveRatio]
    exact le_max_left _ _
  have hhigh : handleMouseMoveRatio W x ≤ 1 - MIN_PANEL_WIDTH / W := by
    simp only [handleMouseMoveRatio]
    exact max_le hminmax (min_le_left _ _)
  have hmul : MIN_PANEL_WIDTH / W * W = MIN_PANEL_WIDTH :=
    div_mul_cancel₀ _ (ne_of_gt hW0)
  refine ⟨hlow, hhigh, ?_, ?_⟩
  · have h2 := mul_le_mul_of_nonneg_right hlow (le_of_lt hW0)
    rwa [hmul] at h2
  · have h1 : MIN_PANEL_WIDTH / W ≤ 1 - handleMouseMoveRatio W x := by linarith
    have h2 := mul_le_mul_of_nonneg_right h1 (le_of_lt hW0)
    rwa [hmul] at h2

/-- C10 (witness): a 640-px container with the mouse at its left edge. -/
theorem handleMouseMoveRatio_clamped_witness :
    MIN_PANEL_WIDTH / 640 ≤ handleMouseMoveRatio 640 0 ∧
    handleMouseMoveRatio 640 0 ≤ 1 - MIN_PANEL_WIDTH / 640 ∧
    MIN_PANEL_WIDTH ≤ handleMouseMoveRatio 640 0 * 640 ∧
    MIN_PANEL_WIDTH ≤ (1 - handleMouseMoveRatio 640 0) * 640 :=
  handleMouseMoveRatio_clamped 640 0 (by norm_num [MIN_PANEL_WIDTH])
